import Mathlib

/-!
Verification of the powermon availability-monitoring and outage-detection
engine.  The definitions below are a shallow embedding of
`app/services/switch_monitor.py`, `app/tasks.py` and `app/models.py`:

* database tables become Lean lists kept in insertion order;
* `datetime` timestamps become exact rationals (seconds);
* Python's true division and float arithmetic become exact `ℚ` arithmetic;
* a fallible `db.session.commit()` becomes an `Except Unit` result driven by
  an explicit environment flag;
* the probe itself (`check_switch_status`, an ICMP subprocess call) is an
  external effect, so its outcome is an explicit input per switch.
-/

/-- Embeds `app.models.SmartSwitch`: id, network address and the active flag
(the fields the engine reads). -/
structure SmartSwitch where
  id : ℕ
  ip_address : String
  is_active : Bool
deriving Repr, DecidableEq

/-- Embeds `app.models.PowerCheck`: one observation row. -/
structure PowerCheck where
  switch_id : ℕ
  is_online : Bool
  response_time : Option ℚ
  error_message : Option String
  checked_at : ℚ
deriving Repr, DecidableEq

/-- Embeds `app.models.PowerOutage`: one outage row. -/
structure PowerOutage where
  started_at : ℚ
  ended_at : Option ℚ
  duration_seconds : Option ℤ
  switches_affected : List ℕ
  is_ongoing : Bool
deriving Repr, DecidableEq

/-- Embeds `SwitchMonitor.__init__`: the per-probe timeout and the
`POWER_OUTAGE_THRESHOLD` configuration value read from the environment. -/
structure SwitchMonitor where
  timeout : ℕ
  outage_threshold : ℤ
deriving Repr, DecidableEq

/-- Embeds `SwitchMonitor()` with the code's defaults (`timeout=5`,
`POWER_OUTAGE_THRESHOLD` unset, so `2`). -/
def defaultMonitor : SwitchMonitor := ⟨5, 2⟩

/-- One entry of the `results` list built by `check_all_switches`:
the dict `{"switch": .., "power_check": .., "is_online": ..}`. -/
structure CheckResult where
  switch : SmartSwitch
  power_check : PowerCheck
  is_online : Bool
deriving Repr, DecidableEq

/-- The database state the engine touches: the `power_checks` and
`power_outages` tables, each in insertion order. -/
structure DB where
  checks : List PowerCheck
  outages : List PowerOutage
deriving Repr, DecidableEq

/-- Python `int(q)` on a real value: truncation toward zero. -/
def pyInt (q : ℚ) : ℤ := if q < 0 then ⌈q⌉ else ⌊q⌋

/-- Embeds `offline_count = sum(1 for result in check_results if not result["is_online"])`. -/
def offlineCount (results : List CheckResult) : ℕ :=
  (results.filter (fun r => !r.is_online)).length

/-- Embeds `offline_switch_ids = [result["switch"].id for result in check_results if not result["is_online"]]`. -/
def offlineSwitchIds (results : List CheckResult) : List ℕ :=
  (results.filter (fun r => !r.is_online)).map (fun r => r.switch.id)

/-- Embeds `is_outage_detected = offline_count >= (total_switches / 2)`
(Python true division, modelled exactly in `ℚ`). -/
def isOutageDetected (results : List CheckResult) : Bool :=
  decide ((results.length : ℚ) / 2 ≤ (offlineCount results : ℚ))

/-- Embeds `PowerOutage.query.filter_by(is_ongoing=True).first()`. -/
def findOngoing (outages : List PowerOutage) : Option PowerOutage :=
  outages.find? (fun o => o.is_ongoing)

/-- The close mutation: `ended_at = now`,
`duration_seconds = int((ended_at - started_at).total_seconds())`,
`is_ongoing = False`. -/
def closeOutage (o : PowerOutage) (now : ℚ) : PowerOutage :=
  { o with ended_at := some now
         , duration_seconds := some (pyInt (now - o.started_at))
         , is_ongoing := false }

/-- Apply the close mutation to the row `first()` returned: the first
ongoing row of the table, in place. -/
def closeFirstOngoing (outages : List PowerOutage) (now : ℚ) : List PowerOutage :=
  match outages with
  | [] => []
  | o :: rest =>
      if o.is_ongoing then closeOutage o now :: rest
      else o :: closeFirstOngoing rest now

/-- The row built when a new outage starts: `started_at=utcnow()`,
`switches_affected=offline_switch_ids`, `is_ongoing=True`. -/
def newOutage (results : List CheckResult) (now : ℚ) : PowerOutage :=
  { started_at := now
  , ended_at := none
  , duration_seconds := none
  , switches_affected := offlineSwitchIds results
  , is_ongoing := true }

/-- Embeds `SwitchMonitor._evaluate_power_outages`.  Note the body never reads the
monitor's fields, exactly as in the source (the configured
`outage_threshold` is not consulted). -/
def SwitchMonitor.evaluatePowerOutages (_m : SwitchMonitor)
    (results : List CheckResult) (now : ℚ)
    (outages : List PowerOutage) : List PowerOutage :=
  if results.length = 0 then outages
  else
    let detected := isOutageDetected results
    let ongoing := findOngoing outages
    if detected && ongoing.isNone then outages ++ [newOutage results now]
    else if !detected && ongoing.isSome then closeFirstOngoing outages now
    else outages

/-- Number of rows with `is_ongoing=True`. -/
def ongoingCount (outages : List PowerOutage) : ℕ :=
  (outages.filter (fun o => o.is_ongoing)).length

/-- A `CheckResult` for examples: switch `i`, probed online/offline `b`. -/
def mkRes (i : ℕ) (b : Bool) : CheckResult :=
  { switch := { id := i, ip_address := "", is_active := true }
  , power_check := { switch_id := i, is_online := b, response_time := none
                   , error_message := none, checked_at := 0 }
  , is_online := b }

/-- The outcome of `check_switch_status` for one switch: an external probe
effect, so it is an explicit input. -/
structure ProbeOutcome where
  is_online : Bool
  response_time : Option ℚ
  error_message : Option String
deriving Repr, DecidableEq

/-- Embeds `SwitchMonitor.record_power_check`: builds the `PowerCheck` row and
commits it.  The commit is the fallible persistence step; `commitFails`
says whether it raises, in which case nothing is appended and the
exception propagates (there is no try/except in the source). -/
def SwitchMonitor.recordPowerCheck (_m : SwitchMonitor) (sw : SmartSwitch)
    (oc : ProbeOutcome) (now : ℚ) (commitFails : Bool) (db : DB) :
    Except Unit (PowerCheck × DB) :=
  let power_check : PowerCheck :=
    { switch_id := sw.id
    , is_online := oc.is_online
    , response_time := oc.response_time
    , error_message := oc.error_message
    , checked_at := now }
  if commitFails then Except.error ()
  else Except.ok (power_check, { db with checks := db.checks ++ [power_check] })

/-- One switch of a monitoring cycle together with its environment: the
probe outcome and whether its commit fails. -/
structure SwitchEnv where
  switch : SmartSwitch
  outcome : ProbeOutcome
  commitFails : Bool
deriving Repr, DecidableEq

/-- The `PowerCheck` row that `record_power_check` builds for the switch of
environment entry `e` at time `now`. -/
def SwitchEnv.row (e : SwitchEnv) (now : ℚ) : PowerCheck :=
  { switch_id := e.switch.id
  , is_online := e.outcome.is_online
  , response_time := e.outcome.response_time
  , error_message := e.outcome.error_message
  , checked_at := now }

/-- The `for switch in switches:` loop of `check_all_switches`: probe,
record, append to `results`.  An uncaught commit exception aborts the loop
at that switch. -/
def checkLoop (m : SwitchMonitor) (now : ℚ) :
    List SwitchEnv → DB → Except Unit (List CheckResult) × DB
  | [], db => (Except.ok [], db)
  | e :: rest, db =>
    match m.recordPowerCheck e.switch e.outcome now e.commitFails db with
    | Except.error u => (Except.error u, db)
    | Except.ok (pc, db1) =>
      match checkLoop m now rest db1 with
      | (Except.ok results, db2) =>
          (Except.ok ({ switch := e.switch, power_check := pc
                      , is_online := e.outcome.is_online } :: results), db2)
      | (Except.error u, db2) => (Except.error u, db2)

/-- Embeds `SwitchMonitor.check_all_switches`: filter the active switches, run the
loop, then evaluate outages once on the collected results. -/
def SwitchMonitor.checkAllSwitches (m : SwitchMonitor) (env : List SwitchEnv)
    (now : ℚ) (db : DB) : Except Unit (List CheckResult) × DB :=
  match checkLoop m now (env.filter (fun e => e.switch.is_active)) db with
  | (Except.ok results, db1) =>
      (Except.ok results,
        { db1 with outages := m.evaluatePowerOutages results now db1.outages })
  | (Except.error u, db1) => (Except.error u, db1)

/-- Embeds `app.tasks.check_single_switch`: look the switch up by primary key; if
absent return an error payload; otherwise probe it and record one
observation.  No outage code is reached. -/
def checkSingleSwitch (switches : List SmartSwitch) (switch_id : ℕ)
    (oc : ProbeOutcome) (now : ℚ) (commitFails : Bool) (db : DB) :
    Except Unit (Option PowerCheck) × DB :=
  match switches.find? (fun sw => sw.id == switch_id) with
  | none => (Except.ok none, db)
  | some sw =>
    match defaultMonitor.recordPowerCheck sw oc now commitFails db with
    | Except.error u => (Except.error u, db)
    | Except.ok (pc, db1) => (Except.ok (some pc), db1)

/-- Embeds `SwitchMonitor.get_switch_uptime_percentage`: count the checks of the
switch in the trailing window, return `0.0` when there are none, else
`online / total * 100`. -/
def SwitchMonitor.getSwitchUptimePercentage (_m : SwitchMonitor)
    (checks : List PowerCheck) (switch_id : ℕ) (now : ℚ) (hours : ℕ) : ℚ :=
  let since := now - (hours : ℚ) * 3600
  let total_checks := (checks.filter
    (fun c => c.switch_id == switch_id && decide (since ≤ c.checked_at))).length
  if total_checks = 0 then 0
  else
    let online_checks := (checks.filter
      (fun c => c.switch_id == switch_id && decide (since ≤ c.checked_at)
                && c.is_online)).length
    ((online_checks : ℚ) / (total_checks : ℚ)) * 100

/-- Insert one check into a list kept newest-first. -/
def insertCheckDesc (c : PowerCheck) : List PowerCheck → List PowerCheck
  | [] => [c]
  | d :: ds => if d.checked_at ≤ c.checked_at then c :: d :: ds
               else d :: insertCheckDesc c ds

/-- Embeds `order_by(PowerCheck.checked_at.desc())` on the table. -/
def sortChecksDesc : List PowerCheck → List PowerCheck
  | [] => []
  | c :: cs => insertCheckDesc c (sortChecksDesc cs)

/-- Python truthiness of an `Optional[int]`: `None` and `0` are falsy. -/
def pyTruthyOptInt : Option ℤ → Bool
  | none => false
  | some n => !(n == 0)

/-- Embeds `SwitchMonitor.get_recent_checks`: order newest first, filter by switch
only when `switch_id` is truthy, and take `limit`. -/
def SwitchMonitor.getRecentChecks (_m : SwitchMonitor) (checks : List PowerCheck)
    (switch_id : Option ℤ) (limit : ℕ) : List PowerCheck :=
  let query := sortChecksDesc checks
  let query2 := if pyTruthyOptInt switch_id then
      query.filter (fun c => some (c.switch_id : ℤ) == switch_id)
    else query
  query2.take limit

/-- A `PowerCheck` row for examples: switch `i`, online `b`, at time `t`. -/
def mkCheck (i : ℕ) (b : Bool) (t : ℚ) : PowerCheck :=
  { switch_id := i, is_online := b, response_time := none
  , error_message := none, checked_at := t }

/-- The code's integer-vs-half comparison agrees with the spec's ratio form
on every nonempty cycle. -/
lemma isOutageDetected_iff_ratio (results : List CheckResult) (h : results ≠ []) :
    isOutageDetected results = true ↔
      (1 / 2 : ℚ) ≤ (offlineCount results : ℚ) / (results.length : ℚ) := by
  have hlen : (0 : ℚ) < (results.length : ℚ) := by
    exact_mod_cast List.length_pos.mpr h
  rw [isOutageDetected, decide_eq_true_iff, le_div_iff hlen]
  constructor <;> intro hx <;> nlinarith

lemma length_closeFirstOngoing (l : List PowerOutage) (now : ℚ) :
    (closeFirstOngoing l now).length = l.length := by
  induction l with
  | nil => rfl
  | cons o rest ih =>
      by_cases hb : o.is_ongoing <;> simp [closeFirstOngoing, hb, ih]

lemma findOngoing_cons_false (o : PowerOutage) (rest : List PowerOutage)
    (hb : o.is_ongoing = false) : findOngoing (o :: rest) = findOngoing rest := by
  simp [findOngoing, List.find?_cons, hb]

lemma ongoingCount_closeFirstOngoing (l : List PowerOutage) (now : ℚ)
    (h : findOngoing l ≠ none) :
    ongoingCount (closeFirstOngoing l now) + 1 = ongoingCount l := by
  induction l with
  | nil => simp [findOngoing] at h
  | cons o rest ih =>
      by_cases hb : o.is_ongoing
      · simp [closeFirstOngoing, hb, ongoingCount, closeOutage]
      · rw [findOngoing_cons_false o rest (by simp [hb])] at h
        simp only [closeFirstOngoing, hb, if_false]
        simpa [ongoingCount, hb] using ih h

lemma ongoingCount_append_new (l : List PowerOutage) (o : PowerOutage)
    (hb : o.is_ongoing = true) :
    ongoingCount (l ++ [o]) = ongoingCount l + 1 := by
  simp [ongoingCount, List.filter_append, hb]

lemma findOngoing_eq_none_iff (l : List PowerOutage) :
    findOngoing l = none ↔ ∀ o ∈ l, o.is_ongoing = false := by
  simp [findOngoing, List.find?_eq_none]

/-- The two state transitions of `_evaluate_power_outages` on a nonempty
cycle: a row is appended exactly when the ratio condition holds and no row
is ongoing; the number of ongoing rows drops exactly when the ratio
condition fails and one is ongoing. -/
lemma evaluate_transitions (m : SwitchMonitor) (results : List CheckResult)
    (now : ℚ) (outages : List PowerOutage) (h : results ≠ []) :
    ((m.evaluatePowerOutages results now outages).length = outages.length + 1 ↔
      ((1 / 2 : ℚ) ≤ (offlineCount results : ℚ) / (results.length : ℚ) ∧
        findOngoing outages = none)) ∧
    (ongoingCount (m.evaluatePowerOutages results now outages) < ongoingCount outages ↔
      ((offlineCount results : ℚ) / (results.length : ℚ) < (1 / 2 : ℚ) ∧
        findOngoing outages ≠ none)) := by
  have hno : ¬ results.length = 0 := by simpa using h
  rcases hdet : isOutageDetected results with _ | _ <;>
    rcases hong : findOngoing outages with _ | o
  · -- not detected, none ongoing: no-op
    have hE : m.evaluatePowerOutages results now outages = outages := by
      simp [SwitchMonitor.evaluatePowerOutages, hno, hdet, hong]
    have hnot : ¬ (1 / 2 : ℚ) ≤ (offlineCount results : ℚ) / (results.length : ℚ) := by
      intro hx
      simpa [hdet] using (isOutageDetected_iff_ratio results h).mpr hx
    rw [hE]
    refine ⟨iff_of_false (by omega) ?_, iff_of_false (lt_irrefl _) ?_⟩
    · rintro ⟨h1, -⟩
      exact hnot h1
    · rintro ⟨-, hne⟩
      exact hne rfl
  · -- not detected, one ongoing: close
    have hE : m.evaluatePowerOutages results now outages = closeFirstOngoing outages now := by
      simp [SwitchMonitor.evaluatePowerOutages, hno, hdet, hong]
    have hnot : ¬ (1 / 2 : ℚ) ≤ (offlineCount results : ℚ) / (results.length : ℚ) := by
      intro hx
      simpa [hdet] using (isOutageDetected_iff_ratio results h).mpr hx
    have hcnt := ongoingCount_closeFirstOngoing outages now (by simp [hong])
    rw [hE]
    refine ⟨iff_of_false ?_ ?_, iff_of_true (by omega) ⟨not_le.mp hnot, by simp [hong]⟩⟩
    · rw [length_closeFirstOngoing]
      omega
    · rintro ⟨h1, -⟩
      exact hnot h1
  · -- detected, none ongoing: open
    have hE : m.evaluatePowerOutages results now outages
        = outages ++ [newOutage results now] := by
      simp [SwitchMonitor.evaluatePowerOutages, hno, hdet, hong]
    have hrat := (isOutageDetected_iff_ratio results h).mp hdet
    rw [hE]
    refine ⟨iff_of_true (by simp) ⟨hrat, rfl⟩, iff_of_false ?_ ?_⟩
    · rw [ongoingCount_append_new outages (newOutage results now) rfl]
      omega
    · rintro ⟨-, hne⟩
      exact hne rfl
  · -- detected, one ongoing: no-op
    have hE : m.evaluatePowerOutages results now outages = outages := by
      simp [SwitchMonitor.evaluatePowerOutages, hno, hdet, hong]
    have hrat := (isOutageDetected_iff_ratio results h).mp hdet
    rw [hE]
    refine ⟨iff_of_false (by omega) ?_, iff_of_false (lt_irrefl _) ?_⟩
    · rintro ⟨-, hne⟩
      simp [hong] at hne
    · rintro ⟨h1, -⟩
      exact absurd hrat (not_le.mpr h1)

lemma ongoingCount_eq_zero (l : List PowerOutage) (h : findOngoing l = none) :
    ongoingCount l = 0 := by
  rw [findOngoing_eq_none_iff] at h
  induction l with
  | nil => rfl
  | cons o rest ih =>
      have ho := h o (by simp)
      simp only [ongoingCount, List.filter_cons, ho]
      exact ih fun x hx => h x (by simp [hx])

lemma evaluate_nil (m : SwitchMonitor) (now : ℚ) (outages : List PowerOutage) :
    m.evaluatePowerOutages [] now outages = outages := by
  simp [SwitchMonitor.evaluatePowerOutages]

/-- C1: on a cycle with `total > 0`, a new outage row is appended iff
`offline/total >= 0.5` and no outage is ongoing, and an ongoing outage is
closed iff `offline/total < 0.5` and one is ongoing; 1 offline of 2 opens
an outage, 2 offline of 5 does not, and an empty result list changes no
state. -/
theorem evaluate_open_close_characterisation (m : SwitchMonitor)
    (results : List CheckResult) (now : ℚ) (outages : List PowerOutage)
    (h : results ≠ []) :
    (((m.evaluatePowerOutages results now outages).length = outages.length + 1) ↔
      ((1 / 2 : ℚ) ≤ (offlineCount results : ℚ) / (results.length : ℚ) ∧
        findOngoing outages = none)) ∧
    ((ongoingCount (m.evaluatePowerOutages results now outages) < ongoingCount outages) ↔
      ((offlineCount results : ℚ) / (results.length : ℚ) < (1 / 2 : ℚ) ∧
        findOngoing outages ≠ none)) ∧
    (defaultMonitor.evaluatePowerOutages [mkRes 1 false, mkRes 2 true] 0 []
      = [{ started_at := 0, ended_at := none, duration_seconds := none
         , switches_affected := [1], is_ongoing := true }]) ∧
    (defaultMonitor.evaluatePowerOutages
      [mkRes 1 false, mkRes 2 false, mkRes 3 true, mkRes 4 true, mkRes 5 true] 0 [] = []) ∧
    (∀ (t : ℚ) (outs : List PowerOutage), m.evaluatePowerOutages [] t outs = outs) := by
  refine ⟨(evaluate_transitions m results now outages h).1,
          (evaluate_transitions m results now outages h).2, ?_, ?_, evaluate_nil m⟩
  · simp [SwitchMonitor.evaluatePowerOutages, isOutageDetected, offlineCount,
      offlineSwitchIds, findOngoing, newOutage, mkRes]
  · simp [SwitchMonitor.evaluatePowerOutages, isOutageDetected, offlineCount,
      offlineSwitchIds, findOngoing, newOutage, mkRes] <;> norm_num

/-- C1 witness: concrete instance of the characterisation. -/
theorem evaluate_open_close_characterisation_witness :
    (defaultMonitor.evaluatePowerOutages [mkRes 1 false, mkRes 2 true] 0
      ([] : List PowerOutage)).length = ([] : List PowerOutage).length + 1 :=
  ((evaluate_open_close_characterisation defaultMonitor [mkRes 1 false, mkRes 2 true] 0 []
      (by simp)).1).mpr
    ⟨by norm_num [offlineCount, mkRes], rfl⟩

/-- C2: the evaluation preserves "at most one ongoing outage", and when the
outage condition holds while an outage is already ongoing it is a no-op on
the outage table. -/
theorem evaluate_preserves_single_ongoing (m : SwitchMonitor)
    (results : List CheckResult) (now : ℚ) (outages : List PowerOutage)
    (h : ongoingCount outages ≤ 1) :
    ongoingCount (m.evaluatePowerOutages results now outages) ≤ 1 ∧
    (∀ o, findOngoing outages = some o →
      (1 / 2 : ℚ) ≤ (offlineCount results : ℚ) / (results.length : ℚ) →
      m.evaluatePowerOutages results now outages = outages) := by
  by_cases hres : results = []
  · subst hres
    exact ⟨by simpa [evaluate_nil] using h, fun o _ _ => evaluate_nil m now outages⟩
  have hno : ¬ results.length = 0 := by simpa using hres
  rcases hdet : isOutageDetected results with _ | _ <;>
    rcases hong : findOngoing outages with _ | o
  · have hE : m.evaluatePowerOutages results now outages = outages := by
      simp [SwitchMonitor.evaluatePowerOutages, hno, hdet, hong]
    exact ⟨by rw [hE]; exact h, fun o ho _ => Option.noConfusion ho⟩
  · have hE : m.evaluatePowerOutages results now outages = closeFirstOngoing outages now := by
      simp [SwitchMonitor.evaluatePowerOutages, hno, hdet, hong]
    have hcnt := ongoingCount_closeFirstOngoing outages now (by simp [hong])
    refine ⟨by rw [hE]; omega, fun o' _ hrat => ?_⟩
    have := (isOutageDetected_iff_ratio results hres).mpr hrat
    simp [hdet] at this
  · have hE : m.evaluatePowerOutages results now outages
        = outages ++ [newOutage results now] := by
      simp [SwitchMonitor.evaluatePowerOutages, hno, hdet, hong]
    have hz := ongoingCount_eq_zero outages hong
    refine ⟨?_, fun o ho _ => Option.noConfusion ho⟩
    rw [hE, ongoingCount_append_new outages (newOutage results now) rfl, hz]
  · have hE : m.evaluatePowerOutages results now outages = outages := by
      simp [SwitchMonitor.evaluatePowerOutages, hno, hdet, hong]
    exact ⟨by rw [hE]; exact h, fun o' _ _ => hE⟩

/-- C2 witness: concrete instance of invariant preservation and of the
in-outage no-op. -/
theorem evaluate_preserves_single_ongoing_witness :
    ongoingCount (defaultMonitor.evaluatePowerOutages [mkRes 1 false] 0
      [newOutage [mkRes 1 false] 0]) ≤ 1 ∧
    defaultMonitor.evaluatePowerOutages [mkRes 1 false] 0 [newOutage [mkRes 1 false] 0]
      = [newOutage [mkRes 1 false] 0] :=
  ⟨(evaluate_preserves_single_ongoing defaultMonitor [mkRes 1 false] 0
      [newOutage [mkRes 1 false] 0] (by simp [ongoingCount, newOutage])).1,
   (evaluate_preserves_single_ongoing defaultMonitor [mkRes 1 false] 0
      [newOutage [mkRes 1 false] 0] (by simp [ongoingCount, newOutage])).2
      (newOutage [mkRes 1 false] 0) rfl (by norm_num [offlineCount, mkRes])⟩

/-- C3 counterexample: with the configured threshold raised to 1000000,
the 1-offline-of-2 cycle is still classified as an outage, exactly as with
the default configuration — the evaluation never consults the configured
value. -/
theorem threshold_config_ignored_cex :
    SwitchMonitor.evaluatePowerOutages ⟨5, 1000000⟩ [mkRes 1 false, mkRes 2 true] 0 []
      = SwitchMonitor.evaluatePowerOutages ⟨5, 2⟩ [mkRes 1 false, mkRes 2 true] 0 [] ∧
    (SwitchMonitor.evaluatePowerOutages ⟨5, 1000000⟩
        [mkRes 1 false, mkRes 2 true] 0 []).length = 1 := by
  refine ⟨rfl, ?_⟩
  simp [SwitchMonitor.evaluatePowerOutages, isOutageDetected, offlineCount,
    offlineSwitchIds, findOngoing, newOutage, mkRes]

/-- C3 amended: the monitor stores the `POWER_OUTAGE_THRESHOLD`
configuration value, but the outage evaluation never consults it — its
result is identical for any two configurations, and on a nonempty cycle an
outage opens by the fixed `offline/total >= 0.5` rule regardless of the
configured value. -/
theorem threshold_config_ignored (m m' : SwitchMonitor) (results : List CheckResult)
    (now : ℚ) (outages : List PowerOutage) :
    m.evaluatePowerOutages results now outages
      = m'.evaluatePowerOutages results now outages ∧
    (results ≠ [] →
      (((m.evaluatePowerOutages results now outages).length = outages.length + 1) ↔
        ((1 / 2 : ℚ) ≤ (offlineCount results : ℚ) / (results.length : ℚ) ∧
          findOngoing outages = none))) :=
  ⟨rfl, fun h => (evaluate_transitions m results now outages h).1⟩

/-- C3 witness: concrete instance of configuration independence. -/
theorem threshold_config_ignored_witness :
    SwitchMonitor.evaluatePowerOutages ⟨5, 1000000⟩ [mkRes 1 false] 0 []
      = SwitchMonitor.evaluatePowerOutages ⟨5, 2⟩ [mkRes 1 false] 0 [] ∧
    (SwitchMonitor.evaluatePowerOutages ⟨5, 1000000⟩ [mkRes 1 false] 0
        ([] : List PowerOutage)).length = ([] : List PowerOutage).length + 1 :=
  ⟨(threshold_config_ignored ⟨5, 1000000⟩ ⟨5, 2⟩ [mkRes 1 false] 0 []).1,
   ((threshold_config_ignored ⟨5, 1000000⟩ ⟨5, 2⟩ [mkRes 1 false] 0 []).2
      (by simp)).mpr ⟨by norm_num [offlineCount, mkRes], rfl⟩⟩

lemma pyInt_eq_floor (q : ℚ) (h : 0 ≤ q) : pyInt q = ⌊q⌋ := by
  simp [pyInt, not_lt.mpr h]

lemma closeFirstOngoing_append_of_none (l : List PowerOutage) (o : PowerOutage)
    (now : ℚ) (h : findOngoing l = none) (ho : o.is_ongoing = true) :
    closeFirstOngoing (l ++ [o]) now = l ++ [closeOutage o now] := by
  induction l with
  | nil => simp [closeFirstOngoing, ho]
  | cons a rest ih =>
      rw [findOngoing_eq_none_iff] at h
      have ha : a.is_ongoing = false := h a (by simp)
      have hrest : findOngoing rest = none :=
        (findOngoing_eq_none_iff rest).mpr fun x hx => h x (by simp [hx])
      simp [closeFirstOngoing, ha, ih hrest]

lemma findOngoing_append_of_none (l : List PowerOutage) (o : PowerOutage)
    (h : findOngoing l = none) (ho : o.is_ongoing = true) :
    findOngoing (l ++ [o]) = some o := by
  induction l with
  | nil => simp [findOngoing, List.find?_cons, ho]
  | cons a rest ih =>
      rw [findOngoing_eq_none_iff] at h
      have ha : a.is_ongoing = false := h a (by simp)
      have hrest : findOngoing rest = none :=
        (findOngoing_eq_none_iff rest).mpr fun x hx => h x (by simp [hx])
      rw [List.cons_append, findOngoing_cons_false a _ ha]
      exact ih hrest

/-- C5 counterexample: an outage opened at `t0 = 0` and closed at
`t1 = 10.7` seconds stores `duration_seconds = 10` (Python `int`
truncation), while `round(t1 - t0) = 11`. -/
theorem duration_truncates_cex :
    defaultMonitor.evaluatePowerOutages [mkRes 1 true] (107 / 10)
        (defaultMonitor.evaluatePowerOutages [mkRes 1 false] 0 [])
      = [{ started_at := 0, ended_at := some (107 / 10), duration_seconds := some 10
         , switches_affected := [1], is_ongoing := false }] ∧
    round ((107 / 10 : ℚ) - 0) = 11 := by
  have hfl : (⌊(107 / 10 : ℚ) - 0⌋ : ℤ) = 10 := by
    rw [Int.floor_eq_iff] <;> norm_num
  have hrd : round ((107 / 10 : ℚ) - 0) = 11 := by
    rw [round_eq, Int.floor_eq_iff] <;> norm_num
  refine ⟨?_, hrd⟩
  have h1 : defaultMonitor.evaluatePowerOutages [mkRes 1 false] 0 []
      = [{ started_at := 0, ended_at := none, duration_seconds := none
         , switches_affected := [1], is_ongoing := true }] := by
    simp [SwitchMonitor.evaluatePowerOutages, isOutageDetected, offlineCount,
      offlineSwitchIds, findOngoing, newOutage, mkRes]
    norm_num
  rw [h1]
  simp [SwitchMonitor.evaluatePowerOutages, isOutageDetected, offlineCount,
    findOngoing, closeFirstOngoing, closeOutage, mkRes, pyInt]
  norm_num [hfl]

/-- C5 amended: for an outage opened at `t0` (majority offline, none
ongoing) and closed at `t1 >= t0` (majority back online), the stored
`duration_seconds` equals `⌊t1 - t0⌋` — Python `int()` truncation of the
elapsed seconds, not `round(t1 - t0)` — computed at close from the
outage's own start and end timestamps. -/
theorem duration_is_truncated_elapsed (m : SwitchMonitor)
    (results1 results2 : List CheckResult) (t0 t1 : ℚ) (outages : List PowerOutage)
    (h0 : findOngoing outages = none)
    (h1 : results1 ≠ [])
    (h2 : (1 / 2 : ℚ) ≤ (offlineCount results1 : ℚ) / (results1.length : ℚ))
    (h3 : results2 ≠ [])
    (h4 : (offlineCount results2 : ℚ) / (results2.length : ℚ) < (1 / 2 : ℚ))
    (h5 : t0 ≤ t1) :
    m.evaluatePowerOutages results2 t1 (m.evaluatePowerOutages results1 t0 outages)
      = outages ++ [{ started_at := t0, ended_at := some t1
                    , duration_seconds := some ⌊t1 - t0⌋
                    , switches_affected := offlineSwitchIds results1
                    , is_ongoing := false }] := by
  have hno1 : ¬ results1.length = 0 := by simpa using h1
  have hno2 : ¬ results2.length = 0 := by simpa using h3
  have hdet1 : isOutageDetected results1 = true :=
    (isOutageDetected_iff_ratio results1 h1).mpr h2
  have hdet2 : isOutageDetected results2 = false := by
    rcases hb : isOutageDetected results2 with _ | _
    · rfl
    · exact absurd ((isOutageDetected_iff_ratio results2 h3).mp hb) (not_le.mpr h4)
  have hE1 : m.evaluatePowerOutages results1 t0 outages
      = outages ++ [newOutage results1 t0] := by
    simp [SwitchMonitor.evaluatePowerOutages, hno1, hdet1, h0]
  have hfind : findOngoing (outages ++ [newOutage results1 t0])
      = some (newOutage results1 t0) :=
    findOngoing_append_of_none outages _ h0 rfl
  have hE2 : m.evaluatePowerOutages results2 t1 (outages ++ [newOutage results1 t0])
      = closeFirstOngoing (outages ++ [newOutage results1 t0]) t1 := by
    simp [SwitchMonitor.evaluatePowerOutages, hno2, hdet2, hfind]
  rw [hE1, hE2, closeFirstOngoing_append_of_none outages _ t1 h0 rfl]
  have hdur : pyInt (t1 - t0) = ⌊t1 - t0⌋ := pyInt_eq_floor (t1 - t0) (by linarith)
  simp [closeOutage, newOutage, hdur]

/-- C5 witness: concrete instance of the amended duration law. -/
theorem duration_is_truncated_elapsed_witness :
    defaultMonitor.evaluatePowerOutages [mkRes 1 true] (107 / 10)
        (defaultMonitor.evaluatePowerOutages [mkRes 1 false] 0 [])
      = [] ++ [{ started_at := 0, ended_at := some (107 / 10)
               , duration_seconds := some ⌊(107 / 10 : ℚ) - 0⌋
               , switches_affected := offlineSwitchIds [mkRes 1 false]
               , is_ongoing := false }] :=
  duration_is_truncated_elapsed defaultMonitor [mkRes 1 false] [mkRes 1 true]
    0 (107 / 10) [] rfl (by simp)
    (by norm_num [offlineCount, mkRes]) (by simp)
    (by norm_num [offlineCount, mkRes]) (by norm_num)

lemma closeFirstOngoing_getElem (l : List PowerOutage) (now : ℚ) (i : ℕ)
    (hi : i < l.length) :
    ∃ o, l[i]? = some o ∧
      ((closeFirstOngoing l now)[i]? = some o ∨
       (closeFirstOngoing l now)[i]? = some (closeOutage o now)) := by
  induction l generalizing i with
  | nil => simp at hi
  | cons a rest ih =>
      by_cases hb : a.is_ongoing
      · cases i with
        | zero => exact ⟨a, by simp, Or.inr (by simp [closeFirstOngoing, hb])⟩
        | succ j =>
            have hj : j < rest.length := by simpa using hi
            exact ⟨rest[j], by simp [List.getElem?_eq_getElem hj],
              Or.inl (by simp [closeFirstOngoing, hb, List.getElem?_eq_getElem hj])⟩
      · cases i with
        | zero => exact ⟨a, by simp, Or.inl (by simp [closeFirstOngoing, hb])⟩
        | succ j =>
            have hj : j < rest.length := by simpa using hi
            obtain ⟨o, h1, h2⟩ := ih j hj
            exact ⟨o, by simpa using h1, by
              rcases h2 with h2 | h2
              · exact Or.inl (by simpa [closeFirstOngoing, hb] using h2)
              · exact Or.inr (by simpa [closeFirstOngoing, hb] using h2)⟩

lemma evaluate_cases (m : SwitchMonitor) (results : List CheckResult) (now : ℚ)
    (outages : List PowerOutage) :
    m.evaluatePowerOutages results now outages = outages ∨
    m.evaluatePowerOutages results now outages = outages ++ [newOutage results now] ∨
    m.evaluatePowerOutages results now outages = closeFirstOngoing outages now := by
  by_cases h0 : results.length = 0
  · exact Or.inl (by simp [SwitchMonitor.evaluatePowerOutages, h0])
  rcases hdet : isOutageDetected results with _ | _ <;>
    rcases hong : findOngoing outages with _ | o
  · exact Or.inl (by simp [SwitchMonitor.evaluatePowerOutages, h0, hdet, hong])
  · exact Or.inr (Or.inr (by simp [SwitchMonitor.evaluatePowerOutages, h0, hdet, hong]))
  · exact Or.inr (Or.inl (by simp [SwitchMonitor.evaluatePowerOutages, h0, hdet, hong]))
  · exact Or.inl (by simp [SwitchMonitor.evaluatePowerOutages, h0, hdet, hong])

/-- C7: the affected set is frozen at onset.  Every pre-existing outage row
keeps its `started_at` and `switches_affected` across any evaluation, and
is either untouched or mutated only in `ended_at`, `duration_seconds` and
`is_ongoing`; a newly opened outage records exactly the ids of the
checkpoints offline in the opening cycle. -/
theorem affected_set_frozen (m : SwitchMonitor) (results : List CheckResult)
    (now : ℚ) (outages : List PowerOutage) :
    (∀ i, i < outages.length →
      ∃ o o', outages[i]? = some o ∧
        (m.evaluatePowerOutages results now outages)[i]? = some o' ∧
        o'.started_at = o.started_at ∧
        o'.switches_affected = o.switches_affected ∧
        (o' = o ∨ o' = closeOutage o now)) ∧
    (findOngoing outages = none → results ≠ [] →
      (1 / 2 : ℚ) ≤ (offlineCount results : ℚ) / (results.length : ℚ) →
      (m.evaluatePowerOutages results now outages)[outages.length]?
          = some (newOutage results now) ∧
      (newOutage results now).switches_affected = offlineSwitchIds results) := by
  constructor
  · intro i hi
    rcases evaluate_cases m results now outages with hE | hE | hE
    · exact ⟨outages[i], outages[i], List.getElem?_eq_getElem hi,
        by rw [hE]; exact List.getElem?_eq_getElem hi, rfl, rfl, Or.inl rfl⟩
    · refine ⟨outages[i], outages[i], List.getElem?_eq_getElem hi, ?_, rfl, rfl, Or.inl rfl⟩
      rw [hE, List.getElem?_append]
      simp [hi, List.getElem?_eq_getElem hi]
    · obtain ⟨o, h1, h2⟩ := closeFirstOngoing_getElem outages now i hi
      rcases h2 with h2 | h2
      · exact ⟨o, o, h1, by rw [hE]; exact h2, rfl, rfl, Or.inl rfl⟩
      · exact ⟨o, closeOutage o now, h1, by rw [hE]; exact h2, rfl, rfl, Or.inr rfl⟩
  · intro hong hne hrat
    have hno : ¬ results.length = 0 := by simpa using hne
    have hdet : isOutageDetected results = true :=
      (isOutageDetected_iff_ratio results hne).mpr hrat
    have hE : m.evaluatePowerOutages results now outages
        = outages ++ [newOutage results now] := by
      simp [SwitchMonitor.evaluatePowerOutages, hno, hdet, hong]
    rw [hE]
    exact ⟨by simp, rfl⟩

/-- C7 witness: opening on the 1-of-2 cycle records exactly the offline
ids. -/
theorem affected_set_frozen_witness :
    (defaultMonitor.evaluatePowerOutages [mkRes 1 false, mkRes 2 true] 0
        ([] : List PowerOutage))[([] : List PowerOutage).length]?
      = some (newOutage [mkRes 1 false, mkRes 2 true] 0) ∧
    (newOutage [mkRes 1 false, mkRes 2 true] 0).switches_affected
      = offlineSwitchIds [mkRes 1 false, mkRes 2 true] :=
  (affected_set_frozen defaultMonitor [mkRes 1 false, mkRes 2 true] 0 []).2
    rfl (by simp) (by norm_num [offlineCount, mkRes])


lemma checkLoop_cons (m : SwitchMonitor) (now : ℚ) (e : SwitchEnv)
    (rest : List SwitchEnv) (db : DB) :
    checkLoop m now (e :: rest) db =
      if e.commitFails then (Except.error (), db)
      else
        match checkLoop m now rest { db with checks := db.checks ++ [e.row now] } with
        | (Except.ok rs, db2) =>
            (Except.ok ({ switch := e.switch, power_check := e.row now
                        , is_online := e.outcome.is_online } :: rs), db2)
        | (Except.error u, db2) => (Except.error u, db2) := by
  by_cases hcf : e.commitFails <;>
    simp [checkLoop, SwitchMonitor.recordPowerCheck, hcf, SwitchEnv.row]

lemma checkLoop_ok_switches (m : SwitchMonitor) (now : ℚ) (l : List SwitchEnv) :
    ∀ (db : DB) (results : List CheckResult) (db2 : DB),
      checkLoop m now l db = (Except.ok results, db2) →
      results.map (fun r => r.switch) = l.map (fun e => e.switch) := by
  induction l with
  | nil =>
      intro db results db2 h
      simp only [checkLoop, Prod.mk.injEq, Except.ok.injEq] at h
      obtain ⟨h1, -⟩ := h
      cases h1
      rfl
  | cons e rest ih =>
      intro db results db2 h
      rw [checkLoop_cons] at h
      by_cases hcf : e.commitFails
      · simp [hcf] at h
      · simp only [hcf, if_false, Bool.false_eq_true] at h
        rcases hrec : checkLoop m now rest { db with checks := db.checks ++ [e.row now] }
          with ⟨res, dbx⟩
        rw [hrec] at h
        cases res with
        | ok rs =>
            simp only [Prod.mk.injEq, Except.ok.injEq] at h
            obtain ⟨h1, -⟩ := h
            cases h1
            simp [ih _ _ _ hrec]
        | error u => simp at h

lemma checkLoop_outages_unchanged (m : SwitchMonitor) (now : ℚ) (l : List SwitchEnv) :
    ∀ db : DB, (checkLoop m now l db).2.outages = db.outages := by
  induction l with
  | nil => intro db; rfl
  | cons e rest ih =>
      intro db
      rw [checkLoop_cons]
      by_cases hcf : e.commitFails
      · simp [hcf]
      · simp only [hcf, if_false, Bool.false_eq_true]
        rcases hrec : checkLoop m now rest { db with checks := db.checks ++ [e.row now] }
          with ⟨res, dbx⟩
        have hx := ih { db with checks := db.checks ++ [e.row now] }
        rw [hrec] at hx
        cases res <;> simpa using hx

lemma checkLoop_checks_extend (m : SwitchMonitor) (now : ℚ) (l : List SwitchEnv) :
    ∀ db : DB, ∃ xs, (checkLoop m now l db).2.checks = db.checks ++ xs := by
  induction l with
  | nil => intro db; exact ⟨[], by simp [checkLoop]⟩
  | cons e rest ih =>
      intro db
      rw [checkLoop_cons]
      by_cases hcf : e.commitFails
      · exact ⟨[], by simp [hcf]⟩
      · simp only [hcf, if_false, Bool.false_eq_true]
        rcases hrec : checkLoop m now rest { db with checks := db.checks ++ [e.row now] }
          with ⟨res, dbx⟩
        obtain ⟨xs, hxs⟩ := ih { db with checks := db.checks ++ [e.row now] }
        rw [hrec] at hxs
        cases res <;> exact ⟨e.row now :: xs, by simpa using hxs⟩

lemma checkLoop_error_of_fail (m : SwitchMonitor) (now : ℚ) (l : List SwitchEnv)
    (h : ∃ e ∈ l, e.commitFails = true) :
    ∀ db : DB, (checkLoop m now l db).1 = Except.error () := by
  induction l with
  | nil => simp at h
  | cons e rest ih =>
      intro db
      rw [checkLoop_cons]
      by_cases hcf : e.commitFails
      · simp [hcf]
      · have hrest : ∃ x ∈ rest, x.commitFails = true := by
          obtain ⟨x, hx, hxf⟩ := h
          rcases List.mem_cons.mp hx with rfl | hx'
          · exact absurd hxf (by simpa using hcf)
          · exact ⟨x, hx', hxf⟩
        simp only [hcf, if_false, Bool.false_eq_true]
        rcases hrec : checkLoop m now rest { db with checks := db.checks ++ [e.row now] }
          with ⟨res, dbx⟩
        have hx := ih hrest { db with checks := db.checks ++ [e.row now] }
        rw [hrec] at hx
        cases res <;> simpa using hx

/-- C8: an inactive checkpoint is invisible to the cycle: inserting one
anywhere in the fleet changes nothing about the cycle's outcome (it is not
probed, not recorded, not counted, and cannot affect outage state), and
every successful cycle probes exactly the active checkpoints in order. -/
theorem inactive_switch_excluded (m : SwitchMonitor) (env1 env2 : List SwitchEnv)
    (e : SwitchEnv) (now : ℚ) (db : DB) (h : e.switch.is_active = false) :
    m.checkAllSwitches (env1 ++ e :: env2) now db
      = m.checkAllSwitches (env1 ++ env2) now db ∧
    (∀ results db2, m.checkAllSwitches (env1 ++ env2) now db = (Except.ok results, db2) →
      results.map (fun r => r.switch)
        = ((env1 ++ env2).filter (fun x => x.switch.is_active)).map
            (fun x => x.switch)) := by
  have hf : (env1 ++ e :: env2).filter (fun x => x.switch.is_active)
      = (env1 ++ env2).filter (fun x => x.switch.is_active) := by
    simp [List.filter_append, List.filter_cons, h]
  constructor
  · unfold SwitchMonitor.checkAllSwitches
    rw [hf]
  · intro results db2 hok
    unfold SwitchMonitor.checkAllSwitches at hok
    rcases hrec : checkLoop m now ((env1 ++ env2).filter fun x => x.switch.is_active) db
      with ⟨res, dbx⟩
    rw [hrec] at hok
    cases res with
    | ok rs =>
        simp only [Prod.mk.injEq, Except.ok.injEq] at hok
        obtain ⟨h1, -⟩ := hok
        cases h1
        exact checkLoop_ok_switches m now _ _ _ _ hrec
    | error u => simp at hok

/-- C8 witness: inserting an inactive switch leaves the cycle unchanged. -/
theorem inactive_switch_excluded_witness :
    defaultMonitor.checkAllSwitches
        ([] ++ ⟨⟨7, "10.0.0.7", false⟩, ⟨false, none, none⟩, false⟩ ::
          [⟨⟨1, "10.0.0.1", true⟩, ⟨true, some 1, none⟩, false⟩]) 0 ⟨[], []⟩
      = defaultMonitor.checkAllSwitches
          ([] ++ [⟨⟨1, "10.0.0.1", true⟩, ⟨true, some 1, none⟩, false⟩]) 0 ⟨[], []⟩ :=
  (inactive_switch_excluded defaultMonitor []
    [⟨⟨1, "10.0.0.1", true⟩, ⟨true, some 1, none⟩, false⟩]
    ⟨⟨7, "10.0.0.7", false⟩, ⟨false, none, none⟩, false⟩ 0 ⟨[], []⟩ rfl).1

/-- C4 counterexample: a persistence failure on the first of two active
checkpoints aborts the whole cycle — the exception propagates, no summary
is returned, the second checkpoint is never recorded, and no outage
evaluation happens (the database is untouched). -/
theorem persistence_failure_aborts_cex :
    defaultMonitor.checkAllSwitches
        [⟨⟨1, "10.0.0.1", true⟩, ⟨true, some 1, none⟩, true⟩,
         ⟨⟨2, "10.0.0.2", true⟩, ⟨true, some 1, none⟩, false⟩] 0 ⟨[], []⟩
      = (Except.error (), ⟨[], []⟩) := by
  rfl

/-- C4 amended: a persistence failure while recording any active
checkpoint's observation aborts the cycle: the call returns the propagated
exception instead of a summary, no outage evaluation occurs (the outage
table is untouched), and only observations recorded before the failure are
appended. -/
theorem persistence_failure_aborts (m : SwitchMonitor) (env : List SwitchEnv)
    (now : ℚ) (db : DB)
    (h : ∃ e ∈ env.filter (fun x => x.switch.is_active), e.commitFails = true) :
    (m.checkAllSwitches env now db).1 = Except.error () ∧
    (m.checkAllSwitches env now db).2.outages = db.outages ∧
    ∃ xs, (m.checkAllSwitches env now db).2.checks = db.checks ++ xs := by
  unfold SwitchMonitor.checkAllSwitches
  rcases hrec : checkLoop m now (env.filter fun x => x.switch.is_active) db
    with ⟨res, dbx⟩
  have herr := checkLoop_error_of_fail m now _ h db
  rw [hrec] at herr
  have hout := checkLoop_outages_unchanged m now (env.filter fun x => x.switch.is_active) db
  rw [hrec] at hout
  obtain ⟨xs, hxs⟩ := checkLoop_checks_extend m now (env.filter fun x => x.switch.is_active) db
  rw [hrec] at hxs
  simp only at herr
  subst herr
  exact ⟨rfl, hout, xs, hxs⟩

/-- C4 witness: concrete instance of the abort behaviour. -/
theorem persistence_failure_aborts_witness :
    (defaultMonitor.checkAllSwitches
        [⟨⟨1, "10.0.0.1", true⟩, ⟨true, some 1, none⟩, true⟩,
         ⟨⟨2, "10.0.0.2", true⟩, ⟨true, some 1, none⟩, false⟩] 0 ⟨[], []⟩).1
      = Except.error () :=
  (persistence_failure_aborts defaultMonitor
    [⟨⟨1, "10.0.0.1", true⟩, ⟨true, some 1, none⟩, true⟩,
     ⟨⟨2, "10.0.0.2", true⟩, ⟨true, some 1, none⟩, false⟩] 0 ⟨[], []⟩
    ⟨⟨⟨1, "10.0.0.1", true⟩, ⟨true, some 1, none⟩, true⟩, by simp, rfl⟩).1

/-- C9: the on-demand single-checkpoint check never reads or writes outage
state — the outage table is identical before and after for every input —
and when the checkpoint exists and the commit succeeds it appends exactly
one observation for that checkpoint. -/
theorem single_check_no_outage_access (switches : List SmartSwitch) (switch_id : ℕ)
    (oc : ProbeOutcome) (now : ℚ) (commitFails : Bool) (db : DB) :
    (checkSingleSwitch switches switch_id oc now commitFails db).2.outages
      = db.outages ∧
    (∀ sw, switches.find? (fun s => s.id == switch_id) = some sw →
      commitFails = false →
      (checkSingleSwitch switches switch_id oc now commitFails db).2.checks
        = db.checks ++ [{ switch_id := sw.id, is_online := oc.is_online
                        , response_time := oc.response_time
                        , error_message := oc.error_message
                        , checked_at := now }]) := by
  rcases hfind : switches.find? (fun s => s.id == switch_id) with _ | sw
  · refine ⟨by simp [checkSingleSwitch, hfind], fun sw hsw _ => ?_⟩
    rw [hfind] at hsw
    exact Option.noConfusion hsw
  · cases commitFails with
    | true =>
        refine ⟨by simp [checkSingleSwitch, hfind, SwitchMonitor.recordPowerCheck],
          fun sw' _ hf' => Bool.noConfusion hf'⟩
    | false =>
        refine ⟨by simp [checkSingleSwitch, hfind, SwitchMonitor.recordPowerCheck],
          fun sw' hsw' _ => ?_⟩
        rw [hfind] at hsw'
        injection hsw' with hsw'
        subst hsw'
        simp [checkSingleSwitch, hfind, SwitchMonitor.recordPowerCheck]

/-- C9 witness: the single check appends one observation and leaves a
nonempty outage table untouched. -/
theorem single_check_no_outage_access_witness :
    (checkSingleSwitch [⟨1, "10.0.0.1", true⟩] 1 ⟨true, some 1, none⟩ 0 false
        ⟨[], [newOutage [mkRes 1 false] 0]⟩).2.outages
      = [newOutage [mkRes 1 false] 0] ∧
    (checkSingleSwitch [⟨1, "10.0.0.1", true⟩] 1 ⟨true, some 1, none⟩ 0 false
        ⟨[], [newOutage [mkRes 1 false] 0]⟩).2.checks
      = [] ++ [{ switch_id := 1, is_online := true, response_time := some 1
               , error_message := none, checked_at := 0 }] :=
  ⟨(single_check_no_outage_access [⟨1, "10.0.0.1", true⟩] 1 ⟨true, some 1, none⟩ 0 false
      ⟨[], [newOutage [mkRes 1 false] 0]⟩).1,
   (single_check_no_outage_access [⟨1, "10.0.0.1", true⟩] 1 ⟨true, some 1, none⟩ 0 false
      ⟨[], [newOutage [mkRes 1 false] 0]⟩).2 ⟨1, "10.0.0.1", true⟩ rfl rfl⟩

lemma uptime_eq (m : SwitchMonitor) (checks : List PowerCheck) (sid : ℕ)
    (now : ℚ) (hours : ℕ) :
    m.getSwitchUptimePercentage checks sid now hours =
      if (checks.filter (fun c => c.switch_id == sid &&
            decide (now - (hours : ℚ) * 3600 ≤ c.checked_at))).length = 0 then 0
      else ((checks.filter (fun c => c.switch_id == sid &&
              decide (now - (hours : ℚ) * 3600 ≤ c.checked_at) && c.is_online)).length : ℚ)
           / ((checks.filter (fun c => c.switch_id == sid &&
              decide (now - (hours : ℚ) * 3600 ≤ c.checked_at))).length : ℚ) * 100 := rfl

/-- C6: the uptime percentage is `online/total * 100` over the window,
always within `[0, 100]`, and exactly `0` when the window holds no
observations; 7 reachable of 10 gives `70.0` and an empty history gives
`0.0`. -/
theorem uptime_percentage_correct (m : SwitchMonitor) (checks : List PowerCheck)
    (sid : ℕ) (now : ℚ) (hours : ℕ) :
    0 ≤ m.getSwitchUptimePercentage checks sid now hours ∧
    m.getSwitchUptimePercentage checks sid now hours ≤ 100 ∧
    ((checks.filter (fun c => c.switch_id == sid &&
        decide (now - (hours : ℚ) * 3600 ≤ c.checked_at))).length = 0 →
      m.getSwitchUptimePercentage checks sid now hours = 0) ∧
    ((checks.filter (fun c => c.switch_id == sid &&
        decide (now - (hours : ℚ) * 3600 ≤ c.checked_at))).length ≠ 0 →
      m.getSwitchUptimePercentage checks sid now hours
        = ((checks.filter (fun c => c.switch_id == sid &&
              decide (now - (hours : ℚ) * 3600 ≤ c.checked_at) && c.is_online)).length : ℚ)
          / ((checks.filter (fun c => c.switch_id == sid &&
              decide (now - (hours : ℚ) * 3600 ≤ c.checked_at))).length : ℚ) * 100) ∧
    defaultMonitor.getSwitchUptimePercentage
      (List.replicate 7 (mkCheck 1 true 0) ++ List.replicate 3 (mkCheck 1 false 0))
      1 0 24 = 70 ∧
    defaultMonitor.getSwitchUptimePercentage [] 1 0 24 = 0 := by
  have hmono : (checks.filter (fun c => c.switch_id == sid &&
        decide (now - (hours : ℚ) * 3600 ≤ c.checked_at) && c.is_online)).length
      ≤ (checks.filter (fun c => c.switch_id == sid &&
        decide (now - (hours : ℚ) * 3600 ≤ c.checked_at))).length :=
    by
    refine (List.monotone_filter_right checks ?_).length_le
    intro a ha
    rw [Bool.and_eq_true] at ha
    exact ha.1
  refine ⟨?_, ?_, ?_, ?_, ?_, ?_⟩
  · rw [uptime_eq]
    split
    · exact le_refl 0
    · positivity
  · rw [uptime_eq]
    split
    · norm_num
    next hT =>
      have hTpos : (0 : ℚ) < ((checks.filter (fun c => c.switch_id == sid &&
          decide (now - (hours : ℚ) * 3600 ≤ c.checked_at))).length : ℚ) := by
        exact_mod_cast Nat.pos_of_ne_zero hT
      have hdiv : ((checks.filter (fun c => c.switch_id == sid &&
            decide (now - (hours : ℚ) * 3600 ≤ c.checked_at) && c.is_online)).length : ℚ)
          / ((checks.filter (fun c => c.switch_id == sid &&
            decide (now - (hours : ℚ) * 3600 ≤ c.checked_at))).length : ℚ) ≤ 1 := by
        rw [div_le_one hTpos]
        exact_mod_cast hmono
      nlinarith
  · intro hT
    rw [uptime_eq, if_pos hT]
  · intro hT
    rw [uptime_eq, if_neg hT]
  · norm_num [SwitchMonitor.getSwitchUptimePercentage, mkCheck,
      List.filter_append, List.filter_replicate]
  · norm_num [SwitchMonitor.getSwitchUptimePercentage]

/-- C6 witness: concrete instance of the no-data branch. -/
theorem uptime_percentage_correct_witness :
    defaultMonitor.getSwitchUptimePercentage [] 1 0 24 = 0 :=
  (uptime_percentage_correct defaultMonitor [] 1 0 24).2.2.1 (by simp)

lemma mem_insertCheckDesc (c x : PowerCheck) (l : List PowerCheck) :
    x ∈ insertCheckDesc c l ↔ x = c ∨ x ∈ l := by
  induction l with
  | nil => simp [insertCheckDesc]
  | cons d ds ih =>
      by_cases hle : d.checked_at ≤ c.checked_at
      · simp [insertCheckDesc, hle]
      · simp only [insertCheckDesc, hle, if_false, List.mem_cons, ih]
        tauto

lemma pairwise_insertCheckDesc (c : PowerCheck) (l : List PowerCheck)
    (h : l.Pairwise (fun a b => b.checked_at ≤ a.checked_at)) :
    (insertCheckDesc c l).Pairwise (fun a b => b.checked_at ≤ a.checked_at) := by
  induction l with
  | nil => simp [insertCheckDesc]
  | cons d ds ih =>
      rcases List.pairwise_cons.mp h with ⟨hd, hds⟩
      by_cases hle : d.checked_at ≤ c.checked_at
      · simp only [insertCheckDesc, hle, if_true]
        refine List.pairwise_cons.mpr ⟨?_, h⟩
        intro x hx
        rcases List.mem_cons.mp hx with rfl | hx'
        · exact hle
        · exact le_trans (hd x hx') hle
      · simp only [insertCheckDesc, hle, if_false]
        refine List.pairwise_cons.mpr ⟨?_, ih hds⟩
        intro x hx
        rcases (mem_insertCheckDesc c x ds).mp hx with rfl | hx'
        · exact le_of_lt (not_le.mp hle)
        · exact hd x hx'

lemma sortChecksDesc_pairwise (l : List PowerCheck) :
    (sortChecksDesc l).Pairwise (fun a b => b.checked_at ≤ a.checked_at) := by
  induction l with
  | nil => simp [sortChecksDesc]
  | cons c cs ih => exact pairwise_insertCheckDesc c (sortChecksDesc cs) ih

lemma mem_sortChecksDesc (x : PowerCheck) (l : List PowerCheck) :
    x ∈ sortChecksDesc l ↔ x ∈ l := by
  induction l with
  | nil => simp [sortChecksDesc]
  | cons c cs ih => simp [sortChecksDesc, mem_insertCheckDesc, ih]

/-- C10: `get_recent_checks` applies the switch filter only when the given
id is truthy: id `0` behaves exactly like passing no id (no filtering),
while any nonzero id restricts the result to that switch's checks; the
result is always capped at `limit` and ordered newest first. -/
theorem recent_checks_truthy_filter (m : SwitchMonitor) (checks : List PowerCheck)
    (limit : ℕ) :
    m.getRecentChecks checks (some 0) limit = m.getRecentChecks checks none limit ∧
    (∀ n : ℤ, n ≠ 0 → ∀ c ∈ m.getRecentChecks checks (some n) limit,
      (c.switch_id : ℤ) = n) ∧
    (∀ sid : Option ℤ, (m.getRecentChecks checks sid limit).length ≤ limit) ∧
    (∀ sid : Option ℤ, (m.getRecentChecks checks sid limit).Pairwise
      (fun a b => b.checked_at ≤ a.checked_at)) := by
  refine ⟨rfl, ?_, ?_, ?_⟩
  · intro n hn c hc
    have ht : pyTruthyOptInt (some n) = true := by simp [pyTruthyOptInt, hn]
    simp only [SwitchMonitor.getRecentChecks, ht, if_true] at hc
    have hcf := List.take_subset _ _ hc
    rw [List.mem_filter] at hcf
    have := hcf.2
    simpa using this
  · intro sid
    cases hpt : pyTruthyOptInt sid <;>
      simp only [SwitchMonitor.getRecentChecks, hpt, if_true, if_false,
        Bool.false_eq_true] <;>
      exact List.length_take_le _ _
  · intro sid
    cases hpt : pyTruthyOptInt sid <;>
      simp only [SwitchMonitor.getRecentChecks, hpt, if_true, if_false,
        Bool.false_eq_true]
    · exact ((sortChecksDesc_pairwise checks).sublist (List.take_sublist _ _))
    · exact (((sortChecksDesc_pairwise checks).filter _).sublist (List.take_sublist _ _))

/-- C10 witness: filtering by the nonzero id `1` yields that switch's
check. -/
theorem recent_checks_truthy_filter_witness :
    defaultMonitor.getRecentChecks [mkCheck 1 true 0] (some 0) 5
      = defaultMonitor.getRecentChecks [mkCheck 1 true 0] none 5 ∧
    ((mkCheck 1 true 0).switch_id : ℤ) = 1 :=
  ⟨(recent_checks_truthy_filter defaultMonitor [mkCheck 1 true 0] 5).1,
   (recent_checks_truthy_filter defaultMonitor [mkCheck 1 true 0] 5).2.1 1
     (by decide) (mkCheck 1 true 0)
     (by simp [SwitchMonitor.getRecentChecks, sortChecksDesc, insertCheckDesc,
        pyTruthyOptInt, mkCheck])⟩
